import Mathlib

/-
Verification of the booking orchestration and confirmation engine of the
polimisport bot (src/src/handlers/booking_service.py,
src/src/handlers/booking_executor.py, src/src/utils/database.py, src/main.py).

Modelling conventions:
- A naive Python datetime is modelled at minute granularity as a pair of a
  day number and a minute-of-day.  Day 0 is taken to be a Monday, so that
  Python's date.weekday() (Monday = 0) is day % 7 (Int.emod agrees with
  Python's modulo for a positive modulus).
- Python floor division of a timedelta by a day (timedelta.days) is Int
  division, which in Lean is Int.ediv and floors for the positive divisor
  1440 exactly as Python does.
- SQLite tables are lists of rows plus an autoincrement counter; a SQL
  UPDATE ... WHERE id = ? is a map over the list guarded by the id, an
  INSERT is an append.  Timestamp comparisons on the stored
  'YYYY-MM-DD HH:MM:SS' strings coincide with comparisons of the datetimes
  they denote and are modelled on total minutes.  Rows are kept in insertion
  order; the SQL ORDER BY clauses only reorder the processing inside one
  tick and none of the verified properties depends on that order.
- The course time_start field is stored as an 'HH:MM' string and parsed with
  strptime where used; it is modelled directly as an hour/minute pair.
-/

namespace Polimisport

/-- Naive Python datetime at minute granularity: day number since a Monday
epoch and minute of day. -/
structure DateTime where
  day : Int
  minute : Int
deriving Repr, DecidableEq

/-- Total minutes since the epoch; datetime comparison and subtraction are
carried out on this value. -/
def totalMinutes (t : DateTime) : Int :=
  t.day * 1440 + t.minute

/-- Python replace(hour=0, minute=0, second=0, microsecond=0). -/
def midnight (t : DateTime) : DateTime :=
  { day := t.day, minute := 0 }

/-- Python t + timedelta(days=n). -/
def addDays (t : DateTime) (n : Int) : DateTime :=
  { day := t.day + n, minute := t.minute }

/-- Rebuild a datetime from total minutes (Int division and modulo floor for
the positive divisor 1440, as Python's datetime arithmetic does). -/
def DateTime.ofMinutes (m : Int) : DateTime :=
  { day := m / 1440, minute := m % 1440 }

/-- Python t - timedelta(hours=h), exact datetime arithmetic. -/
def subHours (t : DateTime) (h : Int) : DateTime :=
  DateTime.ofMinutes (totalMinutes t - 60 * h)

/-- Datetime subtraction followed by timedelta.days: floor of the difference
in days, exactly Python's semantics. -/
def timedeltaDays (a b : DateTime) : Int :=
  (totalMinutes a - totalMinutes b) / 1440

theorem totalMinutes_ofMinutes (m : Int) :
    totalMinutes (DateTime.ofMinutes m) = m := by
  simp only [totalMinutes, DateTime.ofMinutes]
  omega

/-- The day_map dictionary of BookingService.get_next_date_for_day, including
the dict.get default of 0 for a key that is absent. -/
def day_map (name : String) : Int :=
  if name = "Lunedì" then 0
  else if name = "Martedì" then 1
  else if name = "Mercoledì" then 2
  else if name = "Giovedì" then 3
  else if name = "Venerdì" then 4
  else if name = "Sabato" then 5
  else if name = "Domenica" then 6
  else 0

/-- The seven Italian day names that are keys of day_map. -/
def italian_day_names : List String :=
  ["Lunedì", "Martedì", "Mercoledì", "Giovedì", "Venerdì", "Sabato", "Domenica"]

/-- BookingService.get_next_date_for_day: next occurrence of a day of week,
never today (days_ahead of 0 is bumped to 7), normalised to midnight. -/
def get_next_date_for_day (today : DateTime) (day_name : String)
    (weeks_ahead : Int) : DateTime :=
  let target_day := day_map day_name
  let current_day := today.day % 7
  let days_ahead_raw := (target_day - current_day) % 7
  let days_ahead := if days_ahead_raw = 0 then 7 else days_ahead_raw
  { day := today.day + days_ahead + 7 * weeks_ahead, minute := 0 }

/-- BookingService.is_within_instant_booking_window: the target is within the
two-day instant window of the portal. -/
def is_within_instant_booking_window (now target : DateTime) : Bool :=
  let today := midnight now
  let days_difference := timedeltaDays target today
  decide (0 ≤ days_difference ∧ days_difference ≤ 2)

/-- BookingService.calculate_execution_time: midnight two days before the
target date. -/
def calculate_execution_time (target : DateTime) : DateTime :=
  midnight { day := target.day - 2, minute := target.minute }

/-- Course time of day, the parsed form of the 'HH:MM' time_start strings. -/
structure TimeOfDay where
  hour : Int
  minute : Int
deriving Repr, DecidableEq

/-- Course dictionary as passed to the booking service. -/
structure Course where
  id : Option Int
  name : String
  location : String
  day_of_week : String
  time_start : TimeOfDay
  time_end : TimeOfDay
  is_fit_center : Bool
deriving Repr, DecidableEq

/-- Row of the scheduled_bookings table.  The stored 'YYYY-MM-DD' target_date
string is modelled by its day number. -/
structure ScheduledBooking where
  id : Int
  user_id : Int
  course_id : Option Int
  course_name : String
  location : String
  day_of_week : String
  time_start : TimeOfDay
  time_end : TimeOfDay
  is_fit_center : Bool
  target_date : Int
  execution_time : DateTime
  status : String
deriving Repr, DecidableEq

/-- Row of the periodic_bookings table. -/
structure PeriodicBooking where
  id : Int
  user_id : Int
  course_id : Option Int
  course_name : String
  location : String
  day_of_week : String
  time_start : TimeOfDay
  time_end : TimeOfDay
  is_fit_center : Bool
  requires_confirmation : Bool
  confirmation_hours_before : Int
  cancel_hours_before : Int
  is_active : Bool
deriving Repr, DecidableEq

/-- Row of the pending_confirmations table. -/
structure PendingConfirmation where
  id : Int
  user_id : Int
  periodic_booking_id : Int
  scheduled_booking_id : Option Int
  confirmation_message_id : Option Int
  target_date : Int
  confirmation_deadline : DateTime
  cancel_deadline : DateTime
  status : String
deriving Repr, DecidableEq

/-- The three scheduling tables of the SQLite database, each with its
autoincrement counter.  Rows are kept in insertion order. -/
structure Db where
  scheduled : List ScheduledBooking
  periodic : List PeriodicBooking
  confirmations : List PendingConfirmation
  next_scheduled_id : Int
  next_periodic_id : Int
  next_confirmation_id : Int
deriving Repr, DecidableEq

/-- Dictionary argument of Database.add_scheduled_booking; the status key is
optional and defaults to pending via booking.get. -/
structure ScheduledBookingData where
  user_id : Int
  course_id : Option Int
  course_name : String
  location : String
  day_of_week : String
  time_start : TimeOfDay
  time_end : TimeOfDay
  is_fit_center : Bool
  target_date : Int
  execution_time : DateTime
  status : Option String
deriving Repr, DecidableEq

/-- Database.add_scheduled_booking: a plain INSERT returning lastrowid.  No
existence check and no unique constraint guards (user, course, target_date). -/
def add_scheduled_booking (db : Db) (b : ScheduledBookingData) :
    Int × Db :=
  let row : ScheduledBooking :=
    { id := db.next_scheduled_id
      user_id := b.user_id
      course_id := b.course_id
      course_name := b.course_name
      location := b.location
      day_of_week := b.day_of_week
      time_start := b.time_start
      time_end := b.time_end
      is_fit_center := b.is_fit_center
      target_date := b.target_date
      execution_time := b.execution_time
      status := b.status.getD ("pending") }
  (db.next_scheduled_id,
    { db with
        scheduled := db.scheduled ++ [row]
        next_scheduled_id := db.next_scheduled_id + 1 })

/-- Database.update_scheduled_booking_status: UPDATE ... SET status WHERE
id = ?.  The new status is written unconditionally, whatever the old one. -/
def update_scheduled_booking_status (db : Db) (booking_id : Int)
    (status : String) : Db :=
  { db with
      scheduled := db.scheduled.map fun b =>
        if b.id = booking_id then { b with status := status } else b }

/-- Dictionary argument of Database.add_periodic_booking; the hour offsets
are optional with dict.get defaults 24 and 2. -/
structure PeriodicBookingData where
  user_id : Int
  course_id : Option Int
  course_name : String
  location : String
  day_of_week : String
  time_start : TimeOfDay
  time_end : TimeOfDay
  is_fit_center : Bool
  requires_confirmation : Bool
  confirmation_hours_before : Option Int
  cancel_hours_before : Option Int
deriving Repr, DecidableEq

/-- Database.add_periodic_booking: INSERT; is_active takes the column default
of 1. -/
def add_periodic_booking (db : Db) (b : PeriodicBookingData) : Int × Db :=
  let row : PeriodicBooking :=
    { id := db.next_periodic_id
      user_id := b.user_id
      course_id := b.course_id
      course_name := b.course_name
      location := b.location
      day_of_week := b.day_of_week
      time_start := b.time_start
      time_end := b.time_end
      is_fit_center := b.is_fit_center
      requires_confirmation := b.requires_confirmation
      confirmation_hours_before := b.confirmation_hours_before.getD 24
      cancel_hours_before := b.cancel_hours_before.getD 2
      is_active := true }
  (db.next_periodic_id,
    { db with
        periodic := db.periodic ++ [row]
        next_periodic_id := db.next_periodic_id + 1 })

/-- Database.get_active_periodic_bookings: SELECT ... WHERE is_active = 1. -/
def get_active_periodic_bookings (db : Db) : List PeriodicBooking :=
  db.periodic.filter (·.is_active)

/-- Dictionary argument of Database.add_pending_confirmation; the message id
key is absent when the confirmation is created by the policy engine. -/
structure PendingConfirmationData where
  user_id : Int
  periodic_booking_id : Int
  scheduled_booking_id : Option Int
  confirmation_message_id : Option Int
  target_date : Int
  confirmation_deadline : DateTime
  cancel_deadline : DateTime
deriving Repr, DecidableEq

/-- Database.add_pending_confirmation: INSERT; status takes the column
default of pending. -/
def add_pending_confirmation (db : Db) (c : PendingConfirmationData) :
    Int × Db :=
  let row : PendingConfirmation :=
    { id := db.next_confirmation_id
      user_id := c.user_id
      periodic_booking_id := c.periodic_booking_id
      scheduled_booking_id := c.scheduled_booking_id
      confirmation_message_id := c.confirmation_message_id
      target_date := c.target_date
      confirmation_deadline := c.confirmation_deadline
      cancel_deadline := c.cancel_deadline
      status := "pending" }
  (db.next_confirmation_id,
    { db with
        confirmations := db.confirmations ++ [row]
        next_confirmation_id := db.next_confirmation_id + 1 })

/-- Database.update_confirmation_status: UPDATE ... SET status WHERE id = ?,
unconditional. -/
def update_confirmation_status (db : Db) (confirmation_id : Int)
    (status : String) : Db :=
  { db with
      confirmations := db.confirmations.map fun c =>
        if c.id = confirmation_id then { c with status := status } else c }

/-- Database.update_confirmation_message_id: UPDATE ... SET
confirmation_message_id WHERE id = ?. -/
def update_confirmation_message_id (db : Db) (confirmation_id : Int)
    (message_id : Int) : Db :=
  { db with
      confirmations := db.confirmations.map fun c =>
        if c.id = confirmation_id then
          { c with confirmation_message_id := some message_id }
        else c }

/-- Database.get_confirmations_needing_action: SELECT ... WHERE status =
pending AND ((confirmation_message_id IS NULL AND confirmation_deadline <=
now) OR cancel_deadline <= now). -/
def get_confirmations_needing_action (db : Db) (now : DateTime) :
    List PendingConfirmation :=
  db.confirmations.filter fun c =>
    decide (c.status = "pending" ∧
      ((c.confirmation_message_id = none ∧
          totalMinutes c.confirmation_deadline ≤ totalMinutes now) ∨
        totalMinutes c.cancel_deadline ≤ totalMinutes now))

/-- BookingService.create_scheduled_booking: resolves the target date (from
the weekday when not given), computes the execution time and inserts the row
with status pending.  The source performs no validation of the resolved
date. -/
def create_scheduled_booking (db : Db) (now : DateTime) (user_id : Int)
    (course : Course) (target : Option DateTime) : Int × Db :=
  let target_date :=
    match target with
    | none => get_next_date_for_day now course.day_of_week 0
    | some t => t
  let execution_time := calculate_execution_time target_date
  add_scheduled_booking db
    { user_id := user_id
      course_id := course.id
      course_name := course.name
      location := course.location
      day_of_week := course.day_of_week
      time_start := course.time_start
      time_end := course.time_end
      is_fit_center := course.is_fit_center
      target_date := target_date.day
      execution_time := execution_time
      status := some ("pending") }

/-- BookingService.create_periodic_booking: inserts the periodic booking with
the given confirmation offsets.  No constraint between the two hour offsets
is checked. -/
def create_periodic_booking (db : Db) (user_id : Int) (course : Course)
    (requires_confirmation : Bool) (confirmation_hours_before : Int)
    (cancel_hours_before : Int) : Int × Db :=
  add_periodic_booking db
    { user_id := user_id
      course_id := course.id
      course_name := course.name
      location := course.location
      day_of_week := course.day_of_week
      time_start := course.time_start
      time_end := course.time_end
      is_fit_center := course.is_fit_center
      requires_confirmation := requires_confirmation
      confirmation_hours_before := some confirmation_hours_before
      cancel_hours_before := some cancel_hours_before }

/-- BookingService._create_confirmation_for_scheduled: the course start is the
target date with the hour and minute of the periodic booking's time_start;
both deadlines are exact datetime subtractions of the configured hours. -/
def create_confirmation_for_scheduled (db : Db) (periodic : PeriodicBooking)
    (scheduled_id : Int) (target_date : DateTime) : Db :=
  let course_datetime : DateTime :=
    { day := target_date.day
      minute := periodic.time_start.hour * 60 + periodic.time_start.minute }
  let confirmation_deadline :=
    subHours course_datetime periodic.confirmation_hours_before
  let cancel_deadline := subHours course_datetime periodic.cancel_hours_before
  (add_pending_confirmation db
    { user_id := periodic.user_id
      periodic_booking_id := periodic.id
      scheduled_booking_id := some scheduled_id
      confirmation_message_id := none
      target_date := target_date.day
      confirmation_deadline := confirmation_deadline
      cancel_deadline := cancel_deadline }).2

/-- Record returned by process_periodic_bookings_for_week for each created
scheduled booking. -/
structure CreatedRecord where
  scheduled_id : Int
  periodic_id : Int
  target_date : Int
deriving Repr, DecidableEq

/-- Body of the loop of BookingService.process_periodic_bookings_for_week for
one active periodic booking: outside the instant window the scheduled booking
is inserted unconditionally, plus a pending confirmation when required. -/
def process_one_periodic (now : DateTime) (acc : List CreatedRecord × Db)
    (periodic : PeriodicBooking) : List CreatedRecord × Db :=
  let next_date := get_next_date_for_day now periodic.day_of_week 0
  if is_within_instant_booking_window now next_date then acc
  else
    let execution_time := calculate_execution_time next_date
    let r := add_scheduled_booking acc.2
      { user_id := periodic.user_id
        course_id := periodic.course_id
        course_name := periodic.course_name
        location := periodic.location
        day_of_week := periodic.day_of_week
        time_start := periodic.time_start
        time_end := periodic.time_end
        is_fit_center := periodic.is_fit_center
        target_date := next_date.day
        execution_time := execution_time
        status := some ("pending") }
    let db2 :=
      if periodic.requires_confirmation then
        create_confirmation_for_scheduled r.2 periodic r.1 next_date
      else r.2
    (acc.1 ++
        [{ scheduled_id := r.1
           periodic_id := periodic.id
           target_date := next_date.day }],
      db2)

/-- BookingService.process_periodic_bookings_for_week: iterate over the
active periodic bookings of the initial database snapshot. -/
def process_periodic_bookings_for_week (db : Db) (now : DateTime) :
    List CreatedRecord × Db :=
  (get_active_periodic_bookings db).foldl (process_one_periodic now) ([], db)

/-- BookingService.confirm_booking: marks the confirmation confirmed,
unconditionally, with no status check. -/
def confirm_booking (db : Db) (confirmation_id : Int) : Db :=
  update_confirmation_status db confirmation_id ("confirmed")

/-- Result of the user-triggered confirm flow together with the number of
invocations of the Automation Collaborator made along the way. -/
structure ConfirmResult where
  db : Db
  automation_calls : Nat
deriving Repr, DecidableEq

/-- The confirm flow of main.PolimiSportBot._confirm_booking: it only calls
BookingService.confirm_booking, which only calls
Database.update_confirmation_status.  The automation_calls field counts the
invocations of the Automation Collaborator (BookingHandler.create_booking)
on this path; the source contains none. -/
def confirm_booking_flow (db : Db) (confirmation_id : Int) : ConfirmResult :=
  { db := confirm_booking db confirmation_id
    automation_calls := 0 }

/-- BookingExecutor._auto_cancel_unconfirmed: cancel the linked scheduled
booking when present, then mark the confirmation auto_cancelled. -/
def auto_cancel_unconfirmed (db : Db) (confirmation : PendingConfirmation) :
    Db :=
  let db1 :=
    match confirmation.scheduled_booking_id with
    | some sid => update_scheduled_booking_status db sid ("cancelled")
    | none => db
  update_confirmation_status db1 confirmation.id ("auto_cancelled")

/-- Observable actions of one confirmation tick: a confirmation prompt is
dispatched to the Notification Collaborator, or a confirmation is
auto-cancelled. -/
inductive ConfAction where
  | sendPrompt (confirmation_id : Int)
  | autoCancel (confirmation_id : Int)
deriving Repr, DecidableEq

/-- Body of the loop of BookingExecutor.process_pending_confirmations for one
selected confirmation.  send_result stands for the Notification Collaborator:
some message id when the Telegram send succeeds and a handle is stored, none
when the send fails or no app is available. -/
def process_confirmation_step (now : DateTime)
    (send_result : PendingConfirmation → Option Int) (db : Db)
    (confirmation : PendingConfirmation) : Db × List ConfAction :=
  if confirmation.confirmation_message_id = none then
    match send_result confirmation with
    | some message_id =>
        (update_confirmation_message_id db confirmation.id message_id,
          [ConfAction.sendPrompt confirmation.id])
    | none => (db, [ConfAction.sendPrompt confirmation.id])
  else if totalMinutes confirmation.cancel_deadline ≤ totalMinutes now then
    (auto_cancel_unconfirmed db confirmation,
      [ConfAction.autoCancel confirmation.id])
  else (db, [])

/-- Accumulating form of the loop body of
BookingExecutor.process_pending_confirmations. -/
def process_confirmations_loop (now : DateTime)
    (send_result : PendingConfirmation → Option Int)
    (acc : Db × List ConfAction) (confirmation : PendingConfirmation) :
    Db × List ConfAction :=
  let r := process_confirmation_step now send_result acc.1 confirmation
  (r.1, acc.2 ++ r.2)

/-- BookingExecutor.process_pending_confirmations: one tick over the
confirmations selected by get_confirmations_needing_action. -/
def process_pending_confirmations (db : Db) (now : DateTime)
    (send_result : PendingConfirmation → Option Int) : Db × List ConfAction :=
  (get_confirmations_needing_action db now).foldl
    (process_confirmations_loop now send_result) (db, [])

/-- Actions that one selected confirmation contributes to the tick; they
depend only on the confirmation, not on the evolving database. -/
def confirmation_action (now : DateTime) (c : PendingConfirmation) :
    List ConfAction :=
  if c.confirmation_message_id = none then [ConfAction.sendPrompt c.id]
  else if totalMinutes c.cancel_deadline ≤ totalMinutes now then
    [ConfAction.autoCancel c.id]
  else []

/-- Number of scheduled bookings stored for one course and target date. -/
def countBookingsFor (db : Db) (course_id : Option Int) (target_date : Int) :
    Nat :=
  db.scheduled.countP fun b =>
    decide (b.course_id = course_id ∧ b.target_date = target_date)

/-- Course start datetime used by the confirmation deadlines: the target date
carrying the hour and minute of the periodic booking's time_start. -/
def course_start_datetime (periodic : PeriodicBooking) (target : DateTime) :
    DateTime :=
  { day := target.day
    minute := periodic.time_start.hour * 60 + periodic.time_start.minute }

/-- Empty database, as produced by Database._init_db on a fresh file. -/
def emptyDb : Db :=
  { scheduled := []
    periodic := []
    confirmations := []
    next_scheduled_id := 1
    next_periodic_id := 1
    next_confirmation_id := 1 }

/-- Concrete test course, the YOGA course of the repository's own tests. -/
def course0 : Course :=
  { id := some 5
    name := "YOGA"
    location := "Giuriati"
    day_of_week := "Lunedì"
    time_start := { hour := 18, minute := 0 }
    time_end := { hour := 19, minute := 0 }
    is_fit_center := false }

/-- Concrete active periodic booking for course0 without confirmation. -/
def p0 : PeriodicBooking :=
  { id := 1
    user_id := 123
    course_id := some 5
    course_name := "YOGA"
    location := "Giuriati"
    day_of_week := "Lunedì"
    time_start := { hour := 18, minute := 0 }
    time_end := { hour := 19, minute := 0 }
    is_fit_center := false
    requires_confirmation := false
    confirmation_hours_before := 5
    cancel_hours_before := 1
    is_active := true }

/-- Periodic booking whose hour offsets violate the intended ordering:
confirmation_hours_before of 1 is below cancel_hours_before of 5. -/
def p_bad : PeriodicBooking :=
  { p0 with
      requires_confirmation := true
      confirmation_hours_before := 1
      cancel_hours_before := 5 }

/-- Concrete clock: Tuesday (day 1) at 10:00. -/
def now0 : DateTime := { day := 1, minute := 600 }

/-- Database holding only the active periodic booking p0. -/
def db0 : Db := { emptyDb with periodic := [p0] }

/-- Scheduled booking for course0 on Monday day 7, freshly created. -/
def sb_pending : ScheduledBooking :=
  { id := 1
    user_id := 123
    course_id := some 5
    course_name := "YOGA"
    location := "Giuriati"
    day_of_week := "Lunedì"
    time_start := { hour := 18, minute := 0 }
    time_end := { hour := 19, minute := 0 }
    is_fit_center := false
    target_date := 7
    execution_time := { day := 5, minute := 0 }
    status := "pending" }

/-- The same booking after the executor completed it. -/
def sb_done : ScheduledBooking := { sb_pending with status := "completed" }

/-- Pending confirmation linked to scheduled booking 1, prompt already sent
as message 99; deadlines Monday 13:00 and Monday 17:00. -/
def conf_linked : PendingConfirmation :=
  { id := 1
    user_id := 123
    periodic_booking_id := 1
    scheduled_booking_id := some 1
    confirmation_message_id := some 99
    target_date := 7
    confirmation_deadline := { day := 7, minute := 780 }
    cancel_deadline := { day := 7, minute := 1020 }
    status := "pending" }

/-- Database state for the terminal-status scenario: the linked scheduled
booking is already completed while its confirmation is still pending. -/
def db_c2 : Db :=
  { scheduled := [sb_done]
    periodic := [p0]
    confirmations := [conf_linked]
    next_scheduled_id := 2
    next_periodic_id := 2
    next_confirmation_id := 2 }

/-- Concrete clock past the cancel deadline: Monday 17:10. -/
def now_c2 : DateTime := { day := 7, minute := 1030 }

/-- Pending confirmation whose prompt was never sent. -/
def conf_nohandle : PendingConfirmation :=
  { conf_linked with confirmation_message_id := none }

/-- Database with a single pending confirmation. -/
def db_c3 : Db := { db_c2 with scheduled := [], confirmations := [conf_nohandle] }

/-- Already rejected confirmation. -/
def conf_rejected : PendingConfirmation :=
  { conf_linked with status := "rejected" }

/-- Database with a single already rejected confirmation. -/
def db_c8 : Db := { db_c2 with scheduled := [], confirmations := [conf_rejected] }

/-- Already confirmed confirmation. -/
def conf_confirmed : PendingConfirmation :=
  { conf_linked with status := "confirmed" }

/-- Database with a single already confirmed confirmation. -/
def db_c9 : Db := { db_c2 with confirmations := [conf_confirmed] }

/-- Database with a pending, never prompted confirmation linked to the
completed booking. -/
def db_c10 : Db := { db_c2 with confirmations := [conf_nohandle] }

/-- Concrete clock for the past-date scenario: day 10 at 10:00. -/
def now_c4 : DateTime := { day := 10, minute := 600 }

/-- Target date seven days in the past relative to now_c4. -/
def past_target : DateTime := { day := 3, minute := 0 }

theorem day_map_mem_bounds {name : String} (h : name ∈ italian_day_names) :
    0 ≤ day_map name ∧ day_map name < 7 := by
  fin_cases h <;> simp [day_map]

theorem day_map_not_mem {name : String} (h : name ∉ italian_day_names) :
    day_map name = 0 := by
  simp only [italian_day_names, List.mem_cons, List.not_mem_nil, or_false,
    not_or] at h
  obtain ⟨h1, h2, h3, h4, h5, h6, h7⟩ := h
  simp [day_map, h1, h2, h3, h4, h5, h6, h7]

theorem get_next_date_spec (today : DateTime) (day_name : String)
    (ht0 : 0 ≤ day_map day_name) (ht7 : day_map day_name < 7)
    (hmin : today.minute < 1440) :
    totalMinutes today < totalMinutes (get_next_date_for_day today day_name 0) ∧
    (get_next_date_for_day today day_name 0).day % 7 = day_map day_name ∧
    (today.day % 7 = day_map day_name →
      (get_next_date_for_day today day_name 0).day = today.day + 7) := by
  simp only [get_next_date_for_day, totalMinutes]
  split <;> constructor <;> try constructor
  all_goals omega

/-- C6: for every weekday name, get_next_date_for_day returns a date that is
strictly in the future and whose weekday matches the name; when today already
is that weekday it returns the date one week ahead, never today. -/
theorem C6_next_occurrence_future_and_matches
    (today : DateTime) (day_name : String)
    (hname : day_name ∈ italian_day_names)
    (hmin : today.minute < 1440) :
    totalMinutes today < totalMinutes (get_next_date_for_day today day_name 0) ∧
    (get_next_date_for_day today day_name 0).day % 7 = day_map day_name ∧
    (today.day % 7 = day_map day_name →
      (get_next_date_for_day today day_name 0).day = today.day + 7) :=
  get_next_date_spec today day_name (day_map_mem_bounds hname).1
    (day_map_mem_bounds hname).2 hmin

/-- Witness for C6 at a concrete input: Tuesday day 1, 10:00, asking for the
next Lunedì. -/
theorem C6_witness :
    "Lunedì" ∈ italian_day_names ∧ (600 : Int) < 1440 ∧
    (totalMinutes ⟨1, 600⟩ <
        totalMinutes (get_next_date_for_day ⟨1, 600⟩ "Lunedì" 0) ∧
      (get_next_date_for_day ⟨1, 600⟩ "Lunedì" 0).day % 7 = day_map ("Lunedì") ∧
      ((1 : Int) % 7 = day_map ("Lunedì") →
        (get_next_date_for_day ⟨1, 600⟩ "Lunedì" 0).day = 1 + 7)) :=
  ⟨by decide, by decide,
    C6_next_occurrence_future_and_matches ⟨1, 600⟩ "Lunedì" (by decide)
      (by decide)⟩

/-- C7: the execution time round-trips: adding two days to the computed
execution time gives midnight of the target date. -/
theorem C7_execution_time_round_trip (target : DateTime) :
    addDays (calculate_execution_time target) 2 = midnight target := by
  cases target
  simp only [addDays, calculate_execution_time, midnight, DateTime.mk.injEq,
    and_true]
  omega

theorem confirmations_update_scheduled_status (db : Db) (sid : Int)
    (st : String) :
    (update_scheduled_booking_status db sid st).confirmations =
      db.confirmations := rfl

theorem scheduled_update_confirmation_status (db : Db) (cid : Int)
    (st : String) :
    (update_confirmation_status db cid st).scheduled = db.scheduled := rfl

theorem scheduled_update_confirmation_message (db : Db) (cid mid : Int) :
    (update_confirmation_message_id db cid mid).scheduled = db.scheduled := rfl

theorem scheduled_create_confirmation (db : Db) (periodic : PeriodicBooking)
    (sid : Int) (target : DateTime) :
    (create_confirmation_for_scheduled db periodic sid target).scheduled =
      db.scheduled := rfl

theorem periodic_create_confirmation (db : Db) (periodic : PeriodicBooking)
    (sid : Int) (target : DateTime) :
    (create_confirmation_for_scheduled db periodic sid target).periodic =
      db.periodic := rfl

theorem periodic_add_scheduled (db : Db) (b : ScheduledBookingData) :
    (add_scheduled_booking db b).2.periodic = db.periodic := rfl

theorem totalMinutes_subHours (t : DateTime) (h : Int) :
    totalMinutes (subHours t h) = totalMinutes t - 60 * h := by
  unfold subHours
  exact totalMinutes_ofMinutes _

/-- C2 counterexample: in the state db_c2 the linked scheduled booking is
already in terminal status completed, yet one confirmation tick past the
cancel deadline overwrites it to cancelled, so a terminal status is left. -/
theorem C2_counterexample :
    sb_done.status = "completed" ∧ sb_done ∈ db_c2.scheduled ∧
    (process_pending_confirmations db_c2 now_c2 (fun _ => none)).1.scheduled.map
        (fun b => b.status) = ["cancelled"] := by
  decide

/-- C2 amended: update_scheduled_booking_status writes the new status
unconditionally, so auto-cancellation of an unconfirmed confirmation moves
even a completed or failed linked scheduled booking to cancelled; terminal
statuses are not protected. -/
theorem C2_terminal_status_overwritten (db : Db) (conf : PendingConfirmation)
    (b : ScheduledBooking) (hb : b ∈ db.scheduled)
    (hlink : conf.scheduled_booking_id = some b.id)
    (hterm : b.status = "completed" ∨ b.status = "failed") :
    { b with status := "cancelled" } ∈
      (auto_cancel_unconfirmed db conf).scheduled := by
  have h1 : auto_cancel_unconfirmed db conf =
      update_confirmation_status
        (update_scheduled_booking_status db b.id ("cancelled"))
        conf.id ("auto_cancelled") := by
    unfold auto_cancel_unconfirmed
    rw [hlink]
  rw [h1, scheduled_update_confirmation_status]
  simp only [update_scheduled_booking_status]
  exact List.mem_map.mpr ⟨b, hb, by simp⟩

/-- Witness for C2 at the concrete state db_c2. -/
theorem C2_witness :
    sb_done ∈ db_c2.scheduled ∧
    conf_linked.scheduled_booking_id = some sb_done.id ∧
    (sb_done.status = "completed" ∨ sb_done.status = "failed") ∧
    { sb_done with status := "cancelled" } ∈
      (auto_cancel_unconfirmed db_c2 conf_linked).scheduled :=
  ⟨by decide, by decide, by decide,
    C2_terminal_status_overwritten db_c2 conf_linked sb_done (by decide)
      (by decide) (by decide)⟩

/-- C3 counterexample: confirming pending confirmation 1 in db_c3 makes zero
invocations of the Automation Collaborator yet the status still becomes
confirmed, against the claim that it is confirmed only when an immediate
automation attempt succeeds. -/
theorem C3_counterexample :
    conf_nohandle.status = "pending" ∧
    (confirm_booking_flow db_c3 1).automation_calls = 0 ∧
    (confirm_booking_flow db_c3 1).db.confirmations.map (fun c => c.status) =
      ["confirmed"] := by
  decide

/-- C3 amended: confirm_booking never invokes the Automation Collaborator and
marks the confirmation confirmed unconditionally; there is no failure path
that leaves it pending. -/
theorem C3_confirm_without_automation (db : Db) (c : PendingConfirmation)
    (hc : c ∈ db.confirmations) :
    (confirm_booking_flow db c.id).automation_calls = 0 ∧
    { c with status := "confirmed" } ∈
      (confirm_booking_flow db c.id).db.confirmations := by
  refine ⟨rfl, ?_⟩
  simp only [confirm_booking_flow, confirm_booking, update_confirmation_status]
  exact List.mem_map.mpr ⟨c, hc, by simp⟩

/-- Witness for C3 at the concrete state db_c3. -/
theorem C3_witness :
    conf_nohandle ∈ db_c3.confirmations ∧
    ((confirm_booking_flow db_c3 conf_nohandle.id).automation_calls = 0 ∧
      { conf_nohandle with status := "confirmed" } ∈
        (confirm_booking_flow db_c3 conf_nohandle.id).db.confirmations) :=
  ⟨by decide, C3_confirm_without_automation db_c3 conf_nohandle (by decide)⟩

/-- C8 counterexample: confirming the already rejected confirmation 1 in
db_c8 raises no invalid-state error; it changes the state, overwriting the
status to confirmed (and, as always, makes no automation call). -/
theorem C8_counterexample :
    conf_rejected.status = "rejected" ∧
    (confirm_booking_flow db_c8 1).automation_calls = 0 ∧
    (confirm_booking_flow db_c8 1).db.confirmations.map (fun c => c.status) =
      ["confirmed"] := by
  decide

/-- C8 amended: confirm_booking performs no status check: on an already
rejected confirmation it fails with no error and overwrites the status to
confirmed; no automation call is attempted (none ever is). -/
theorem C8_confirm_on_rejected_overwrites (db : Db) (c : PendingConfirmation)
    (hc : c ∈ db.confirmations) (hstat : c.status = "rejected") :
    (confirm_booking_flow db c.id).automation_calls = 0 ∧
    { c with status := "confirmed" } ∈
      (confirm_booking_flow db c.id).db.confirmations := by
  refine ⟨rfl, ?_⟩
  simp only [confirm_booking_flow, confirm_booking, update_confirmation_status]
  exact List.mem_map.mpr ⟨c, hc, by simp⟩

/-- Witness for C8 at the concrete state db_c8. -/
theorem C8_witness :
    conf_rejected ∈ db_c8.confirmations ∧ conf_rejected.status = "rejected" ∧
    ((confirm_booking_flow db_c8 conf_rejected.id).automation_calls = 0 ∧
      { conf_rejected with status := "confirmed" } ∈
        (confirm_booking_flow db_c8 conf_rejected.id).db.confirmations) :=
  ⟨by decide, by decide,
    C8_confirm_on_rejected_overwrites db_c8 conf_rejected (by decide)
      (by decide)⟩

/-- C4 counterexample: with the clock at day 10, creating a scheduled booking
for the past day 3 succeeds and persists a pending row instead of failing
with a validation error, and the malformed weekday name NotADay is silently
mapped to the same day as Lunedì instead of being rejected. -/
theorem C4_counterexample :
    totalMinutes past_target < totalMinutes now_c4 ∧
    ((create_scheduled_booking emptyDb now_c4 123 course0
          (some past_target)).2).scheduled.map
        (fun b => (b.status, b.target_date)) = [("pending", 3)] ∧
    "NotADay" ∉ italian_day_names ∧
    day_map ("NotADay") = day_map ("Lunedì") := by
  decide

/-- C4 amended: create_scheduled_booking performs no validation: even when
the target date is in the past it persists exactly one new row with status
pending for that date, and a weekday name outside the day_map keys is mapped
to the default day 0 (Lunedì) rather than rejected. -/
theorem C4_no_validation (db : Db) (now : DateTime) (user_id : Int)
    (course : Course) (target : DateTime)
    (hpast : totalMinutes target < totalMinutes now) :
    (∃ b : ScheduledBooking,
      ((create_scheduled_booking db now user_id course
            (some target)).2).scheduled = db.scheduled ++ [b] ∧
      b.status = "pending" ∧ b.target_date = target.day) ∧
    ∀ name, name ∉ italian_day_names → day_map name = 0 := by
  constructor
  · exact ⟨_, rfl, rfl, rfl⟩
  · intro name h
    exact day_map_not_mem h

/-- Witness for C4 at the concrete past-date input. -/
theorem C4_witness :
    totalMinutes past_target < totalMinutes now_c4 ∧
    ((∃ b : ScheduledBooking,
        ((create_scheduled_booking emptyDb now_c4 123 course0
              (some past_target)).2).scheduled = emptyDb.scheduled ++ [b] ∧
        b.status = "pending" ∧ b.target_date = past_target.day) ∧
      ∀ name, name ∉ italian_day_names → day_map name = 0) :=
  ⟨by decide,
    C4_no_validation emptyDb now_c4 123 course0 past_target (by decide)⟩

/-- C5 counterexample: the configuration with confirmation_hours_before of 1
below cancel_hours_before of 5 is not rejected at creation, and the pending
confirmation it produces has its cancel deadline strictly before its
confirmation deadline, violating the claimed ordering. -/
theorem C5_counterexample :
    p_bad.confirmation_hours_before < p_bad.cancel_hours_before ∧
    (create_periodic_booking emptyDb 123 course0 true 1 5).2.periodic.map
        (fun p => (p.confirmation_hours_before, p.cancel_hours_before,
          p.is_active)) = [(1, 5, true)] ∧
    (create_confirmation_for_scheduled emptyDb p_bad 1 ⟨7, 0⟩).confirmations.map
        (fun c => decide (totalMinutes c.cancel_deadline <
          totalMinutes c.confirmation_deadline)) = [true] := by
  decide

/-- C5 amended: the created pending confirmation always has deadlines equal
to the course start minus the configured hours, and these satisfy
confirmation_deadline before cancel_deadline before course start whenever
confirmation_hours_before exceeds cancel_hours_before and the latter is
positive; violating configurations are not rejected at creation but persisted
unchanged by create_periodic_booking. -/
theorem C5_deadline_invariant (db db2 : Db) (periodic : PeriodicBooking)
    (scheduled_id : Int) (target : DateTime) (user_id : Int) (course : Course)
    (requires_confirmation : Bool) (ch kh : Int)
    (horder : periodic.cancel_hours_before < periodic.confirmation_hours_before)
    (hpos : 0 < periodic.cancel_hours_before) :
    (∃ c : PendingConfirmation,
      (create_confirmation_for_scheduled db periodic scheduled_id
          target).confirmations = db.confirmations ++ [c] ∧
      totalMinutes c.confirmation_deadline =
        totalMinutes (course_start_datetime periodic target) -
          60 * periodic.confirmation_hours_before ∧
      totalMinutes c.cancel_deadline =
        totalMinutes (course_start_datetime periodic target) -
          60 * periodic.cancel_hours_before ∧
      totalMinutes c.confirmation_deadline <
        totalMinutes c.cancel_deadline ∧
      totalMinutes c.cancel_deadline <
        totalMinutes (course_start_datetime periodic target)) ∧
    (∃ p : PeriodicBooking,
      (create_periodic_booking db2 user_id course requires_confirmation ch
          kh).2.periodic = db2.periodic ++ [p] ∧
      p.confirmation_hours_before = ch ∧ p.cancel_hours_before = kh ∧
      p.is_active = true) := by
  constructor
  · refine ⟨_, rfl, ?_, ?_, ?_, ?_⟩
    · show totalMinutes (subHours (course_start_datetime periodic target)
          periodic.confirmation_hours_before) = _
      rw [totalMinutes_subHours]
    · show totalMinutes (subHours (course_start_datetime periodic target)
          periodic.cancel_hours_before) = _
      rw [totalMinutes_subHours]
    · show totalMinutes (subHours (course_start_datetime periodic target)
          periodic.confirmation_hours_before) <
        totalMinutes (subHours (course_start_datetime periodic target)
          periodic.cancel_hours_before)
      rw [totalMinutes_subHours, totalMinutes_subHours]
      omega
    · show totalMinutes (subHours (course_start_datetime periodic target)
          periodic.cancel_hours_before) <
        totalMinutes (course_start_datetime periodic target)
      rw [totalMinutes_subHours]
      omega
  · exact ⟨_, rfl, rfl, rfl, rfl⟩

/-- Witness for C5 at the concrete periodic booking p0 (offsets 5 and 1) and
the Monday target day 7. -/
theorem C5_witness :
    p0.cancel_hours_before < p0.confirmation_hours_before ∧
    0 < p0.cancel_hours_before ∧
    ((∃ c : PendingConfirmation,
        (create_confirmation_for_scheduled emptyDb p0 1
            ⟨7, 0⟩).confirmations = emptyDb.confirmations ++ [c] ∧
        totalMinutes c.confirmation_deadline =
          totalMinutes (course_start_datetime p0 ⟨7, 0⟩) -
            60 * p0.confirmation_hours_before ∧
        totalMinutes c.cancel_deadline =
          totalMinutes (course_start_datetime p0 ⟨7, 0⟩) -
            60 * p0.cancel_hours_before ∧
        totalMinutes c.confirmation_deadline <
          totalMinutes c.cancel_deadline ∧
        totalMinutes c.cancel_deadline <
          totalMinutes (course_start_datetime p0 ⟨7, 0⟩)) ∧
      (∃ p : PeriodicBooking,
        (create_periodic_booking emptyDb 123 course0 true 5 1).2.periodic =
          emptyDb.periodic ++ [p] ∧
        p.confirmation_hours_before = 5 ∧ p.cancel_hours_before = 1 ∧
        p.is_active = true)) :=
  ⟨by decide, by decide,
    C5_deadline_invariant emptyDb emptyDb p0 1 ⟨7, 0⟩ 123 course0 true 5 1
      (by decide) (by decide)⟩

theorem process_one_periodic_periodic (now : DateTime)
    (acc : List CreatedRecord × Db) (p : PeriodicBooking) :
    (process_one_periodic now acc p).2.periodic = acc.2.periodic := by
  cases hwin : is_within_instant_booking_window now
      (get_next_date_for_day now p.day_of_week 0)
  · cases hrc : p.requires_confirmation
    · simp [process_one_periodic, hwin, hrc, periodic_add_scheduled]
    · simp [process_one_periodic, hwin, hrc, periodic_create_confirmation,
        periodic_add_scheduled]
  · simp [process_one_periodic, hwin]

theorem process_periodic_single (db : Db) (now : DateTime)
    (p : PeriodicBooking) (hact : get_active_periodic_bookings db = [p]) :
    process_periodic_bookings_for_week db now =
      process_one_periodic now ([], db) p := by
  unfold process_periodic_bookings_for_week
  rw [hact]
  rfl

theorem countBookingsFor_process_one (db : Db) (now : DateTime)
    (p : PeriodicBooking)
    (hwin : is_within_instant_booking_window now
      (get_next_date_for_day now p.day_of_week 0) = false) :
    countBookingsFor (process_one_periodic now ([], db) p).2 p.course_id
        (get_next_date_for_day now p.day_of_week 0).day =
      countBookingsFor db p.course_id
        (get_next_date_for_day now p.day_of_week 0).day + 1 := by
  cases hrc : p.requires_confirmation
  · simp [process_one_periodic, hwin, hrc, countBookingsFor,
      add_scheduled_booking, List.countP_append, List.countP_cons]
  · simp [process_one_periodic, hwin, hrc, scheduled_create_confirmation,
      countBookingsFor, add_scheduled_booking, List.countP_append,
      List.countP_cons]

/-- C1 counterexample: with a single active periodic booking whose next
occurrence is outside the instant window, two runs of
process_periodic_bookings_for_week leave two scheduled bookings for the same
course and target date, not one: the second run does not skip. -/
theorem C1_counterexample :
    get_active_periodic_bookings db0 = [p0] ∧
    is_within_instant_booking_window now0
      (get_next_date_for_day now0 p0.day_of_week 0) = false ∧
    countBookingsFor (process_periodic_bookings_for_week
        (process_periodic_bookings_for_week db0 now0).2 now0).2
      (some 5) 7 = 2 := by
  decide

/-- C1 amended: process_periodic_bookings_for_week inserts a scheduled
booking unconditionally for every active periodic booking outside the
instant window; add_scheduled_booking makes no existing-row check, so two
runs in the same week add two scheduled bookings for that course and target
date instead of one. -/
theorem C1_two_runs_insert_twice (db : Db) (now : DateTime)
    (p : PeriodicBooking) (hact : get_active_periodic_bookings db = [p])
    (hwin : is_within_instant_booking_window now
      (get_next_date_for_day now p.day_of_week 0) = false) :
    countBookingsFor (process_periodic_bookings_for_week
        (process_periodic_bookings_for_week db now).2 now).2
      p.course_id (get_next_date_for_day now p.day_of_week 0).day =
    countBookingsFor db p.course_id
      (get_next_date_for_day now p.day_of_week 0).day + 2 := by
  have h1 := process_periodic_single db now p hact
  have hper : (process_periodic_bookings_for_week db now).2.periodic =
      db.periodic := by
    rw [h1, process_one_periodic_periodic]
  have hact2 : get_active_periodic_bookings
      (process_periodic_bookings_for_week db now).2 = [p] := by
    unfold get_active_periodic_bookings at hact ⊢
    rw [hper]
    exact hact
  have h2 := process_periodic_single
    (process_periodic_bookings_for_week db now).2 now p hact2
  rw [h2]
  rw [countBookingsFor_process_one _ now p hwin]
  rw [h1]
  rw [countBookingsFor_process_one _ now p hwin]

/-- Witness for C1 at the concrete state db0 on Tuesday day 1. -/
theorem C1_witness :
    get_active_periodic_bookings db0 = [p0] ∧
    is_within_instant_booking_window now0
      (get_next_date_for_day now0 p0.day_of_week 0) = false ∧
    countBookingsFor (process_periodic_bookings_for_week
        (process_periodic_bookings_for_week db0 now0).2 now0).2
      p0.course_id (get_next_date_for_day now0 p0.day_of_week 0).day =
    countBookingsFor db0 p0.course_id
      (get_next_date_for_day now0 p0.day_of_week 0).day + 2 :=
  ⟨by decide, by decide,
    C1_two_runs_insert_twice db0 now0 p0 (by decide) (by decide)⟩

theorem mem_needing_action {db : Db} {now : DateTime}
    {c : PendingConfirmation}
    (h : c ∈ get_confirmations_needing_action db now) :
    c ∈ db.confirmations ∧ c.status = "pending" ∧
      ((c.confirmation_message_id = none ∧
          totalMinutes c.confirmation_deadline ≤ totalMinutes now) ∨
        totalMinutes c.cancel_deadline ≤ totalMinutes now) := by
  unfold get_confirmations_needing_action at h
  rw [List.mem_filter, decide_eq_true_eq] at h
  exact ⟨h.1, h.2.1, h.2.2⟩

theorem needing_action_of_mem {db : Db} {now : DateTime}
    {c : PendingConfirmation} (hc : c ∈ db.confirmations)
    (hp : c.status = "pending")
    (hd : (c.confirmation_message_id = none ∧
        totalMinutes c.confirmation_deadline ≤ totalMinutes now) ∨
      totalMinutes c.cancel_deadline ≤ totalMinutes now) :
    c ∈ get_confirmations_needing_action db now := by
  unfold get_confirmations_needing_action
  rw [List.mem_filter, decide_eq_true_eq]
  exact ⟨hc, hp, hd⟩

theorem process_confirmation_step_actions (now : DateTime)
    (send_result : PendingConfirmation → Option Int) (db : Db)
    (c : PendingConfirmation) :
    (process_confirmation_step now send_result db c).2 =
      confirmation_action now c := by
  unfold process_confirmation_step confirmation_action
  by_cases hmsg : c.confirmation_message_id = none
  · rw [if_pos hmsg, if_pos hmsg]
    cases send_result c <;> rfl
  · rw [if_neg hmsg, if_neg hmsg]
    by_cases hdl : totalMinutes c.cancel_deadline ≤ totalMinutes now
    · rw [if_pos hdl, if_pos hdl]
    · rw [if_neg hdl, if_neg hdl]

theorem foldl_loop_actions (now : DateTime)
    (send_result : PendingConfirmation → Option Int) :
    ∀ (l : List PendingConfirmation) (st : Db × List ConfAction)
      (a : ConfAction),
      a ∈ (l.foldl (process_confirmations_loop now send_result) st).2 ↔
        a ∈ st.2 ∨ ∃ c ∈ l, a ∈ confirmation_action now c := by
  intro l
  induction l with
  | nil =>
      intro st a
      simp
  | cons x xs ih =>
      intro st a
      rw [List.foldl_cons, ih]
      have h2 : (process_confirmations_loop now send_result st x).2 =
          st.2 ++ confirmation_action now x := by
        show st.2 ++ (process_confirmation_step now send_result st.1 x).2 =
          st.2 ++ confirmation_action now x
        rw [process_confirmation_step_actions]
      rw [h2]
      constructor
      · rintro (h | ⟨c, hcx, hac⟩)
        · rcases List.mem_append.mp h with h | h
          · exact Or.inl h
          · exact Or.inr ⟨x, List.mem_cons_self x xs, h⟩
        · exact Or.inr ⟨c, List.mem_cons_of_mem x hcx, hac⟩
      · rintro (h | ⟨c, hcx, hac⟩)
        · exact Or.inl (List.mem_append.mpr (Or.inl h))
        · rcases List.mem_cons.mp hcx with rfl | hcx
          · exact Or.inl (List.mem_append.mpr (Or.inr hac))
          · exact Or.inr ⟨c, hcx, hac⟩

theorem step_preserves_other (now : DateTime)
    (send_result : PendingConfirmation → Option Int) (d : Db)
    (x c : PendingConfirmation) (hc : c ∈ d.confirmations)
    (hne : x.id ≠ c.id) :
    c ∈ (process_confirmation_step now send_result d x).1.confirmations := by
  unfold process_confirmation_step
  by_cases hmsg : x.confirmation_message_id = none
  · rw [if_pos hmsg]
    cases send_result x
    · exact hc
    · simp only [update_confirmation_message_id]
      exact List.mem_map.mpr ⟨c, hc, by rw [if_neg (fun h => hne h.symm)]⟩
  · rw [if_neg hmsg]
    by_cases hdl : totalMinutes x.cancel_deadline ≤ totalMinutes now
    · rw [if_pos hdl]
      unfold auto_cancel_unconfirmed
      simp only [update_confirmation_status]
      have hdb1 : (match x.scheduled_booking_id with
          | some sid => update_scheduled_booking_status d sid ("cancelled")
          | none => d).confirmations = d.confirmations := by
        cases x.scheduled_booking_id <;> rfl
      rw [hdb1]
      exact List.mem_map.mpr ⟨c, hc, by rw [if_neg (fun h => hne h.symm)]⟩
    · rw [if_neg hdl]
      exact hc

theorem foldl_loop_preserves (now : DateTime)
    (send_result : PendingConfirmation → Option Int)
    (c : PendingConfirmation) :
    ∀ (l : List PendingConfirmation) (st : Db × List ConfAction),
      c ∈ st.1.confirmations → (∀ x ∈ l, x.id ≠ c.id) →
      c ∈ (l.foldl (process_confirmations_loop now send_result)
          st).1.confirmations := by
  intro l
  induction l with
  | nil =>
      intro st hc _
      exact hc
  | cons x xs ih =>
      intro st hc hne
      rw [List.foldl_cons]
      apply ih
      · exact step_preserves_other now send_result st.1 x c hc
          (hne x (List.mem_cons_self x xs))
      · intro y hy
        exact hne y (List.mem_cons_of_mem x hy)

theorem confirmation_action_id_cases {now : DateTime}
    {x : PendingConfirmation} {a : ConfAction}
    (h : a ∈ confirmation_action now x) :
    a = ConfAction.sendPrompt x.id ∨
      (a = ConfAction.autoCancel x.id ∧ x.confirmation_message_id ≠ none) := by
  unfold confirmation_action at h
  by_cases hmsg : x.confirmation_message_id = none
  · rw [if_pos hmsg] at h
    exact Or.inl (List.mem_singleton.mp h)
  · rw [if_neg hmsg] at h
    by_cases hdl : totalMinutes x.cancel_deadline ≤ totalMinutes now
    · rw [if_pos hdl] at h
      exact Or.inr ⟨List.mem_singleton.mp h, hmsg⟩
    · rw [if_neg hdl] at h
      exact absurd h (List.not_mem_nil a)

/-- C9: one confirmation tick only ever selects and mutates confirmations
whose status is pending: a confirmation that is already confirmed, rejected
or auto_cancelled (and whose id, a primary key, is held by no other row) is
left untouched in the table, and no prompt or auto-cancel action of the tick
refers to it, even when its deadlines have passed. -/
theorem C9_tick_only_pending (db : Db) (now : DateTime)
    (send_result : PendingConfirmation → Option Int) (c : PendingConfirmation)
    (hc : c ∈ db.confirmations)
    (hstat : c.status = "confirmed" ∨ c.status = "rejected" ∨
      c.status = "auto_cancelled")
    (huniq : ∀ x ∈ db.confirmations, x.id = c.id → x = c) :
    c ∈ (process_pending_confirmations db now send_result).1.confirmations ∧
    ∀ a ∈ (process_pending_confirmations db now send_result).2,
      a ≠ ConfAction.sendPrompt c.id ∧ a ≠ ConfAction.autoCancel c.id := by
  have hnp : c.status ≠ "pending" := by
    rcases hstat with h | h | h <;> rw [h] <;> decide
  have hsel : ∀ x ∈ get_confirmations_needing_action db now, x.id ≠ c.id := by
    intro x hx hid
    have hm := mem_needing_action hx
    have hxc := huniq x hm.1 hid
    rw [hxc] at hm
    exact hnp hm.2.1
  constructor
  · exact foldl_loop_preserves now send_result c _ (db, []) hc hsel
  · intro a ha
    unfold process_pending_confirmations at ha
    rw [foldl_loop_actions] at ha
    rcases ha with h | ⟨x, hx, hax⟩
    · exact absurd h (List.not_mem_nil a)
    · have hneid := hsel x hx
      rcases confirmation_action_id_cases hax with rfl | ⟨rfl, _⟩
      · refine ⟨?_, ?_⟩
        · intro heq
          simp only [ConfAction.sendPrompt.injEq] at heq
          exact hneid heq
        · intro heq
          simp at heq
      · refine ⟨?_, ?_⟩
        · intro heq
          simp at heq
        · intro heq
          simp only [ConfAction.autoCancel.injEq] at heq
          exact hneid heq

/-- Witness for C9 at the concrete state db_c9 holding one already confirmed
confirmation, with the clock past both deadlines. -/
theorem C9_witness :
    conf_confirmed ∈ db_c9.confirmations ∧
    (conf_confirmed.status = "confirmed" ∨ conf_confirmed.status = "rejected" ∨
      conf_confirmed.status = "auto_cancelled") ∧
    (∀ x ∈ db_c9.confirmations, x.id = conf_confirmed.id →
      x = conf_confirmed) ∧
    (conf_confirmed ∈ (process_pending_confirmations db_c9 now_c2
        (fun _ => none)).1.confirmations ∧
      ∀ a ∈ (process_pending_confirmations db_c9 now_c2 (fun _ => none)).2,
        a ≠ ConfAction.sendPrompt conf_confirmed.id ∧
        a ≠ ConfAction.autoCancel conf_confirmed.id) :=
  ⟨by decide, by decide, by decide,
    C9_tick_only_pending db_c9 now_c2 (fun _ => none) conf_confirmed
      (by decide) (by decide) (by decide)⟩

/-- C10: within one confirmation tick, a pending confirmation with no stored
message handle is dispatched a confirmation prompt even when its cancel
deadline has already passed, and every auto-cancel action of the tick stems
from a pending confirmation that already had a message handle; a confirmation
is never auto-cancelled before a prompt has been sent. -/
theorem C10_unprompted_gets_prompt (db : Db) (now : DateTime)
    (send_result : PendingConfirmation → Option Int) (c : PendingConfirmation)
    (hc : c ∈ db.confirmations) (hpend : c.status = "pending")
    (hmsg : c.confirmation_message_id = none)
    (hdl : totalMinutes c.cancel_deadline ≤ totalMinutes now) :
    ConfAction.sendPrompt c.id ∈
      (process_pending_confirmations db now send_result).2 ∧
    ∀ cid, ConfAction.autoCancel cid ∈
        (process_pending_confirmations db now send_result).2 →
      ∃ x ∈ db.confirmations, x.id = cid ∧ x.status = "pending" ∧
        x.confirmation_message_id ≠ none := by
  constructor
  · have hselc : c ∈ get_confirmations_needing_action db now :=
      needing_action_of_mem hc hpend (Or.inr hdl)
    unfold process_pending_confirmations
    rw [foldl_loop_actions]
    right
    refine ⟨c, hselc, ?_⟩
    unfold confirmation_action
    rw [if_pos hmsg]
    exact List.mem_singleton.mpr rfl
  · intro cid ha
    unfold process_pending_confirmations at ha
    rw [foldl_loop_actions] at ha
    rcases ha with h | ⟨x, hx, hax⟩
    · exact absurd h (List.not_mem_nil _)
    · rcases confirmation_action_id_cases hax with heq | ⟨heq, hm⟩
      · simp at heq
      · have hmem := mem_needing_action hx
        simp only [ConfAction.autoCancel.injEq] at heq
        exact ⟨x, hmem.1, heq.symm, hmem.2.1, hm⟩

/-- Witness for C10 at the concrete state db_c10 holding one pending,
never prompted confirmation whose cancel deadline has passed. -/
theorem C10_witness :
    conf_nohandle ∈ db_c10.confirmations ∧
    conf_nohandle.status = "pending" ∧
    conf_nohandle.confirmation_message_id = none ∧
    totalMinutes conf_nohandle.cancel_deadline ≤ totalMinutes now_c2 ∧
    (ConfAction.sendPrompt conf_nohandle.id ∈
        (process_pending_confirmations db_c10 now_c2 (fun _ => none)).2 ∧
      ∀ cid, ConfAction.autoCancel cid ∈
          (process_pending_confirmations db_c10 now_c2 (fun _ => none)).2 →
        ∃ x ∈ db_c10.confirmations, x.id = cid ∧ x.status = "pending" ∧
          x.confirmation_message_id ≠ none) :=
  ⟨by decide, by decide, by decide, by decide,
    C10_unprompted_gets_prompt db_c10 now_c2 (fun _ => none) conf_nohandle
      (by decide) (by decide) (by decide) (by decide)⟩

end Polimisport
